import Mathlib

/-!
# Verification of the education-platform backend

Shallow embedding of the Flask router (`backend/app.py`) and the six routed
Lambda handlers (`backend/lambdas/*/lambda_function.py`), together with a
model of Python's `json` module (`json.dumps` with its default separators and
escaping, and `json.loads` as an executable parser).  Machine-checked
statements about the embedded code follow the definitions.
-/

set_option maxHeartbeats 1000000
set_option maxRecDepth 8192

namespace EduPlatform

/-- JSON values as produced by `json.loads` / consumed by `json.dumps`.
A number is represented exactly as `mantissa / 10 ^ exp10`; integers carry
`exp10 = 0`, so that `12` and `12.0` stay distinguishable, as `int` and
`float` are in Python. -/
inductive Json where
  | null
  | bool (b : Bool)
  | num (mantissa : Int) (exp10 : Nat)
  | str (s : String)
  | arr (elems : List Json)
  | obj (members : List (String × Json))

/-- Decimal digit characters of a natural number, most significant first. -/
def natChars (n : Nat) : List Char :=
  Nat.toDigits 10 n

/-- Decimal rendering of `mantissa / 10 ^ exp10`, as Python prints the
corresponding `int` (when `exp10 = 0`) or `float` (otherwise):
`numChars 85 2 = "0.85"`, `numChars 12 0 = "12"`, `numChars 120 1 = "12.0"`. -/
def numChars (m : Int) (e : Nat) : List Char :=
  if e = 0 then
    (if m < 0 then ['-'] else []) ++ natChars m.natAbs
  else
    let ds := natChars m.natAbs
    let ds := if ds.length < e + 1 then List.replicate (e + 1 - ds.length) '0' ++ ds else ds
    (if m < 0 then ['-'] else []) ++ ds.take (ds.length - e) ++ '.' :: ds.drop (ds.length - e)

/-- Lower-case hexadecimal digit for `n < 16`. -/
def hexDigitChar (n : Nat) : Char :=
  if n < 10 then Char.ofNat (48 + n) else Char.ofNat (87 + n)

/-- Escaping of one character inside a JSON string literal, following
`json.dumps`: the two-character escapes for quote, backslash and the common
control characters, `\u00XX` for the remaining control characters, and the
character itself otherwise.  (Non-ASCII characters are emitted verbatim,
i.e. the `ensure_ascii=False` rendering, which `json.loads` accepts.) -/
def escChar (c : Char) : List Char :=
  if c = '"' then ['\\', '"']
  else if c = '\\' then ['\\', '\\']
  else if c = '\n' then ['\\', 'n']
  else if c = '\t' then ['\\', 't']
  else if c = '\r' then ['\\', 'r']
  else if c.toNat = 8 then ['\\', 'b']
  else if c.toNat = 12 then ['\\', 'f']
  else if c.toNat < 32 then
    ['\\', 'u', '0', '0', hexDigitChar (c.toNat / 16), hexDigitChar (c.toNat % 16)]
  else [c]

/-- Escape every character of a JSON string body. -/
def escapeChars : List Char → List Char
  | [] => []
  | c :: cs => escChar c ++ escapeChars cs

mutual

/-- Characters of `json.dumps` applied to a value, with Python's default
separators `", "` and `": "`. -/
def Json.dumpsChars : Json → List Char
  | .null => "null".data
  | .bool true => "true".data
  | .bool false => "false".data
  | .num m e => numChars m e
  | .str s => '"' :: (escapeChars s.data ++ ['"'])
  | .arr xs => '[' :: (dumpsElemsChars xs ++ [']'])
  | .obj kvs => '\x7b' :: (dumpsMembersChars kvs ++ ['\x7d'])

/-- Comma-separated renderings of array elements. -/
def dumpsElemsChars : List Json → List Char
  | [] => []
  | [x] => x.dumpsChars
  | x :: y :: ys => x.dumpsChars ++ ',' :: ' ' :: dumpsElemsChars (y :: ys)

/-- Comma-separated renderings of object members. -/
def dumpsMembersChars : List (String × Json) → List Char
  | [] => []
  | [(k, v)] => '"' :: (escapeChars k.data ++ '"' :: ':' :: ' ' :: v.dumpsChars)
  | (k, v) :: m :: ms =>
      '"' :: (escapeChars k.data ++ '"' :: ':' :: ' ' :: v.dumpsChars)
        ++ ',' :: ' ' :: dumpsMembersChars (m :: ms)

end

/-- `json.dumps` as a string. -/
def Json.dumps (j : Json) : String :=
  String.mk j.dumpsChars

/-! ## A model of `json.loads`

An executable recursive-descent parser over the character list, with fuel for
the nesting of values.  Failure (`none`) models `json.JSONDecodeError`.  The
parser follows the JSON grammar accepted by Python's `json.loads` (strict
mode: raw control characters inside string literals are rejected); the `NaN`
and `Infinity` extensions are not modelled. -/

/-- Skip JSON whitespace. -/
def skipWs : List Char → List Char
  | [] => []
  | c :: cs => if c = ' ' ∨ c = '\n' ∨ c = '\t' ∨ c = '\r' then skipWs cs else c :: cs

/-- Value of one hexadecimal digit character. -/
def hexVal (c : Char) : Option Nat :=
  if '0' ≤ c ∧ c ≤ '9' then some (c.toNat - 48)
  else if 'a' ≤ c ∧ c ≤ 'f' then some (c.toNat - 87)
  else if 'A' ≤ c ∧ c ≤ 'F' then some (c.toNat - 55)
  else none

/-- Is `c` a decimal digit? -/
def isDigitChar (c : Char) : Bool :=
  '0' ≤ c ∧ c ≤ '9'

/-- Parse the body of a string literal after the opening quote; returns the
decoded characters and the input after the closing quote. -/
def parseStrBody : List Char → Option (List Char × List Char)
  | [] => none
  | c :: cs =>
    if c = '"' then some ([], cs)
    else if c = '\\' then
      match cs with
      | [] => none
      | e :: cs' =>
        if e = '"' then (parseStrBody cs').map (fun p => ('"' :: p.1, p.2))
        else if e = '\\' then (parseStrBody cs').map (fun p => ('\\' :: p.1, p.2))
        else if e = '/' then (parseStrBody cs').map (fun p => ('/' :: p.1, p.2))
        else if e = 'n' then (parseStrBody cs').map (fun p => ('\n' :: p.1, p.2))
        else if e = 't' then (parseStrBody cs').map (fun p => ('\t' :: p.1, p.2))
        else if e = 'r' then (parseStrBody cs').map (fun p => ('\r' :: p.1, p.2))
        else if e = 'b' then (parseStrBody cs').map (fun p => ('\x08' :: p.1, p.2))
        else if e = 'f' then (parseStrBody cs').map (fun p => ('\x0c' :: p.1, p.2))
        else if e = 'u' then
          match cs' with
          | h1 :: h2 :: h3 :: h4 :: cs'' =>
            match hexVal h1, hexVal h2, hexVal h3, hexVal h4 with
            | some a, some b, some c2, some d =>
              (parseStrBody cs'').map
                (fun p => (Char.ofNat (4096 * a + 256 * b + 16 * c2 + d) :: p.1, p.2))
            | _, _, _, _ => none
          | _ => none
        else none
    else if c.toNat < 32 then none
    else (parseStrBody cs).map (fun p => (c :: p.1, p.2))

/-- Take the maximal prefix of decimal digits. -/
def takeDigits : List Char → List Char × List Char
  | [] => ([], [])
  | c :: cs =>
    if isDigitChar c then
      let p := takeDigits cs
      (c :: p.1, p.2)
    else ([], c :: cs)

/-- Numeric value of a digit string, most significant first. -/
def digitsToNat (ds : List Char) : Nat :=
  ds.foldl (fun a c => a * 10 + (c.toNat - 48)) 0

/-- Parse a JSON number (integer part, optional fraction, optional exponent),
normalised to `Json.num mantissa exp10`.  Leading zeros are rejected as in
Python's strict grammar.  A value written with a fraction or exponent is kept
float-shaped (`exp10 > 0`), mirroring `json.loads` returning a `float`. -/
def parseNumber (cs : List Char) : Option (Json × List Char) :=
  let (neg, cs1) := match cs with
    | '-' :: r => (true, r)
    | _ => (false, cs)
  let (ip, cs2) := takeDigits cs1
  if ip.isEmpty then none
  else if ip.head? = some '0' ∧ ip.length > 1 then none
  else
    let (fp, cs3) : List Char × List Char := match cs2 with
      | '.' :: r => takeDigits r
      | _ => ([], cs2)
    if (match cs2 with | '.' :: _ => fp.isEmpty | _ => false) then none
    else
      let hasFrac : Bool := match cs2 with | '.' :: _ => true | _ => false
      let (hasExp, expNeg, ed, cs4) : Bool × Bool × List Char × List Char :=
        match cs3 with
        | 'e' :: '-' :: r => let p := takeDigits r; (true, true, p.1, p.2)
        | 'e' :: '+' :: r => let p := takeDigits r; (true, false, p.1, p.2)
        | 'e' :: r => let p := takeDigits r; (true, false, p.1, p.2)
        | 'E' :: '-' :: r => let p := takeDigits r; (true, true, p.1, p.2)
        | 'E' :: '+' :: r => let p := takeDigits r; (true, false, p.1, p.2)
        | 'E' :: r => let p := takeDigits r; (true, false, p.1, p.2)
        | _ => (false, false, [], cs3)
      if hasExp ∧ ed.isEmpty then none
      else
        let mant0 : Nat := digitsToNat (ip ++ fp)
        let e0 : Nat := fp.length
        let k : Int := if expNeg then -(digitsToNat ed : Int) else (digitsToNat ed : Int)
        let (mant1, e1) : Nat × Nat :=
          if k ≥ 0 then
            if (k : Int) ≤ (e0 : Int) then (mant0, e0 - k.toNat)
            else (mant0 * 10 ^ (k.toNat - e0), 0)
          else (mant0, e0 + (-k).toNat)
        let (mant2, e2) : Nat × Nat :=
          if (hasFrac ∨ hasExp) ∧ e1 = 0 then (mant1 * 10, 1) else (mant1, e1)
        let m : Int := if neg then -(mant2 : Int) else (mant2 : Int)
        some (.num m e2, cs4)

/-- Replace the value under key `k`, or append the pair; models insertion
into a Python `dict` (first-inserted position kept, value updated). -/
def assocSet (l : List (String × Json)) (k : String) (v : Json) : List (String × Json) :=
  match l with
  | [] => [(k, v)]
  | (k', v') :: rest => if k' = k then (k', v) :: rest else (k', v') :: assocSet rest k v

/-- Fold a member list into a duplicate-free association list, keeping the
last value for a repeated key, as `json.loads` builds its `dict`. -/
def dedupKeys (l : List (String × Json)) : List (String × Json) :=
  l.foldl (fun acc p => assocSet acc p.1 p.2) []

mutual

/-- Parse one JSON value; `fuel` bounds the nesting depth explored. -/
def parseValue : Nat → List Char → Option (Json × List Char)
  | 0, _ => none
  | fuel + 1, cs0 =>
    match skipWs cs0 with
    | [] => none
    | c :: rest =>
      if c = '"' then (parseStrBody rest).map (fun p => (Json.str (String.mk p.1), p.2))
      else if c = '\x7b' then
        match skipWs rest with
        | '\x7d' :: r => some (Json.obj [], r)
        | cs2 => (parseMembers fuel cs2).map (fun p => (Json.obj (dedupKeys p.1), p.2))
      else if c = '[' then
        match skipWs rest with
        | ']' :: r => some (Json.arr [], r)
        | cs2 => (parseElems fuel cs2).map (fun p => (Json.arr p.1, p.2))
      else if c = 't' then
        match rest with
        | 'r' :: 'u' :: 'e' :: r => some (Json.bool true, r)
        | _ => none
      else if c = 'f' then
        match rest with
        | 'a' :: 'l' :: 's' :: 'e' :: r => some (Json.bool false, r)
        | _ => none
      else if c = 'n' then
        match rest with
        | 'u' :: 'l' :: 'l' :: r => some (Json.null, r)
        | _ => none
      else parseNumber (c :: rest)

/-- Parse `"key": value` members up to and through the closing brace. -/
def parseMembers : Nat → List Char → Option (List (String × Json) × List Char)
  | 0, _ => none
  | fuel + 1, cs =>
    match cs with
    | '"' :: rest =>
      match parseStrBody rest with
      | none => none
      | some (kcs, r1) =>
        match skipWs r1 with
        | ':' :: r2 =>
          match parseValue fuel r2 with
          | none => none
          | some (v, r3) =>
            match skipWs r3 with
            | ',' :: r4 =>
              (parseMembers fuel (skipWs r4)).map
                (fun p => ((String.mk kcs, v) :: p.1, p.2))
            | '\x7d' :: r4 => some ([(String.mk kcs, v)], r4)
            | _ => none
        | _ => none
    | _ => none

/-- Parse array elements up to and through the closing bracket. -/
def parseElems : Nat → List Char → Option (List Json × List Char)
  | 0, _ => none
  | fuel + 1, cs =>
    match parseValue fuel cs with
    | none => none
    | some (v, r) =>
      match skipWs r with
      | ',' :: r2 => (parseElems fuel r2).map (fun p => (v :: p.1, p.2))
      | ']' :: r2 => some ([v], r2)
      | _ => none

end

/-- `json.loads`: parse a whole document, requiring only whitespace after the
value. -/
def parseJson (s : String) : Option Json :=
  match parseValue (2 * s.data.length + 2) s.data with
  | some (j, rest) => if (skipWs rest).isEmpty then some j else none
  | none => none

/-! ## Python value semantics used by the handlers -/

/-- First value under a key in an association list (`dict.get` on the
duplicate-free dictionaries built by `parseJson` and by the handlers). -/
def assocLookup {α : Type} (l : List (String × α)) (k : String) : Option α :=
  match l with
  | [] => none
  | (k', v) :: rest => if k' = k then some v else assocLookup rest k

/-- `body.get(key)` on a parsed JSON object: an absent key and a key mapped
to JSON `null` both yield Python `None`, collapsed here to `none`. -/
def pyGet (kvs : List (String × Json)) (k : String) : Option Json :=
  match assocLookup kvs k with
  | some .null => none
  | o => o

mutual

/-- Python `==` on values decoded from JSON: `True == 1`, `1 == 1.0`,
elementwise list equality, and order-insensitive dict equality. -/
def pyEq : Json → Json → Bool
  | .null, .null => true
  | .bool a, .bool b => a == b
  | .bool a, .num m e => (if a then (1 : Int) else 0) * 10 ^ e == m
  | .num m e, .bool b => (if b then (1 : Int) else 0) * 10 ^ e == m
  | .num m1 e1, .num m2 e2 => m1 * 10 ^ e2 == m2 * 10 ^ e1
  | .str a, .str b => a == b
  | .arr xs, .arr ys => pyEqElems xs ys
  | .obj xs, .obj ys => xs.length == ys.length && pyEqMembers xs ys
  | _, _ => false

/-- Elementwise Python equality of two lists. -/
def pyEqElems : List Json → List Json → Bool
  | [], [] => true
  | x :: xs, y :: ys => pyEq x y && pyEqElems xs ys
  | _, _ => false

/-- Every key of the first dict maps to an equal value in the second. -/
def pyEqMembers : List (String × Json) → List (String × Json) → Bool
  | [], _ => true
  | (k, v) :: rest, ys =>
    (match assocLookup ys k with
     | some v2 => pyEq v v2
     | none => false)
      && pyEqMembers rest ys

end

/-- Python `==` lifted to optional values (`none` models Python `None`). -/
def pyEqOpt : Option Json → Option Json → Bool
  | none, none => true
  | some a, some b => pyEq a b
  | _, _ => false

mutual

/-- Python `repr` of a value decoded from JSON (string quoting modelled with
plain single quotes). -/
def pyRepr : Json → String
  | .null => "None"
  | .bool true => "True"
  | .bool false => "False"
  | .num m e => String.mk (numChars m e)
  | .str s => "'" ++ s ++ "'"
  | .arr xs => "[" ++ pyReprElems xs ++ "]"
  | .obj kvs => "\x7b" ++ pyReprMembers kvs ++ "\x7d"

/-- Comma-separated `repr`s of list elements. -/
def pyReprElems : List Json → String
  | [] => ""
  | [x] => pyRepr x
  | x :: y :: ys => pyRepr x ++ ", " ++ pyReprElems (y :: ys)

/-- Comma-separated `repr`s of dict items. -/
def pyReprMembers : List (String × Json) → String
  | [] => ""
  | [(k, v)] => "'" ++ k ++ "': " ++ pyRepr v
  | (k, v) :: m :: ms => "'" ++ k ++ "': " ++ pyRepr v ++ ", " ++ pyReprMembers (m :: ms)

end

/-- Python `str` of a value decoded from JSON, as used by f-string
interpolation: a string interpolates verbatim, containers via `repr`. -/
def pyStr : Json → String
  | .str s => s
  | j => pyRepr j

/-- `str` applied to an optional value (`none` prints as `None`). -/
def pyStrOpt : Option Json → String
  | none => "None"
  | some j => pyStr j

/-- Lower-case one character (ASCII range, all the provider names use). -/
def pyLowerChar (c : Char) : Char :=
  if 'A' ≤ c ∧ c ≤ 'Z' then Char.ofNat (c.toNat + 32) else c

/-- Python's `str.lower()` on the provider selector. -/
def pyLower (s : String) : String :=
  String.mk (s.data.map pyLowerChar)

/-! ## Events, responses and handler environment -/

/-- The minimal API-Gateway-style event dict the router builds: an optional
query-parameter mapping and an optional raw body string.  An absent field
models an absent dict key (read back with `.get`, so absent and `None`
coincide). -/
structure Event where
  queryStringParameters : Option (List (String × String)) := none
  body : Option String := none

/-- The dict a handler returns: `statusCode`, `headers`, `body`.  Optional
fields model keys a handler may omit (`call_lambda` reads them with
defaults). -/
structure LambdaResult where
  statusCode : Option Nat := none
  headers : List (String × String) := []
  body : Option String := none

/-- The fixed `Content-Type` header map every routed handler attaches. -/
def jsonHeaders : List (String × String) :=
  [("Content-Type", "application/json")]

/-- Process environment and external-world state read by the AI-tutor
handler: the `AI_PROVIDER` variable, availability of the two SDK imports,
and oracles for the outcome of each external call (`Except.error` models a
raised exception escaping the call). -/
structure Env where
  aiProvider : Option String := none
  boto3Available : Bool := true
  openaiAvailable : Bool := true
  bedrockCallResult : Except String String := .ok ""
  openaiCallResult : Except String String := .ok ""

/-- Extract an optional string parameter the way `getLessons` and
`getLearningStyle` do: the `queryStringParameters` dict must be truthy (an
empty dict is falsy), the looked-up value must be truthy (`x or default`),
otherwise the default applies. -/
def extractParam (event : Event) (key default : String) : String :=
  let v : Option String :=
    match event.queryStringParameters with
    | some l => if l.isEmpty then none else assocLookup l key
    | none => none
  match v with
  | some s => if s = "" then default else s
  | none => default

/-! ## The six routed Lambda handlers

Each handler is a function from an event to `Except String LambdaResult`;
`Except.error` models an uncaught Python exception escaping
`lambda_handler`.  Ambient inputs the Python code reads at call time — the
lesson catalog file, the current date, the process environment — are
explicit parameters. -/

namespace getLessons

/-- A grade→subject→lessons catalog, the shape `lessons.json` decodes to. -/
def Catalog : Type := List (String × List (String × List Json))

/-- One selected entry per subject with a non-empty lesson list, at index
(day-of-year mod list length); subjects with an empty list are skipped
(`if not lessons_list: continue`). -/
def selectLessons (dayOfYear : Nat) (gradeLessons : List (String × List Json)) :
    List (String × Json) :=
  gradeLessons.filterMap fun p =>
    if p.2.isEmpty then none
    else some (p.1, p.2.getD (dayOfYear % p.2.length) Json.null)

/-- `backend/lambdas/getLessons/lambda_function.py`, `lambda_handler`.
`catalog` is the decoded `lessons.json`, `dayOfYear` the current
`tm_yday`, `dateStr` the current `%Y-%m-%d` rendering. -/
def lambda_handler (catalog : Catalog) (dayOfYear : Nat) (dateStr : String)
    (event : Event) : Except String LambdaResult :=
  let grade := extractParam event "grade" "K"
  match assocLookup catalog grade with
  | none =>
    .ok ⟨some 404, jsonHeaders,
      some (Json.dumps (.obj [("message", .str ("No lessons found for grade " ++ grade))]))⟩
  | some gradeLessons =>
    if gradeLessons.isEmpty then
      -- `if not grade_lessons:` also fires on a present-but-empty subject map
      .ok ⟨some 404, jsonHeaders,
        some (Json.dumps (.obj [("message", .str ("No lessons found for grade " ++ grade))]))⟩
    else
      .ok ⟨some 200, jsonHeaders,
        some (Json.dumps (.obj
          [("date", .str dateStr), ("grade", .str grade),
           ("lessons", .obj (selectLessons dayOfYear gradeLessons))]))⟩

/-- Modelled from the spec: the kindergarten entry of the catalog, with the
specification's example of a two-entry Math list. -/
def kLessons : List (String × List Json) :=
  [("Math", [.obj [("title", .str "Counting to 10")],
             .obj [("title", .str "Shapes around us")]]),
   ("Reading", [.obj [("title", .str "Letter sounds")]])]

/-- Modelled from the spec: the first-grade entry of the catalog. -/
def g1Lessons : List (String × List Json) :=
  [("Science", [.obj [("title", .str "Living things")]])]

/-- Modelled from the spec: `backend/lessons/lessons.json` is not among the
sources, so the static catalog is reconstructed from the specification's
data model (a static mapping from grade to subject to an ordered list of
lesson records) and its example (grade `K` with a two-entry Math list). -/
def specCatalog : Catalog :=
  [("K", kLessons), ("1", g1Lessons)]

end getLessons

namespace submitAnswer

/-- `backend/lambdas/submitAnswer/lambda_function.py`, `lambda_handler`. -/
def lambda_handler (event : Event) : Except String LambdaResult :=
  match parseJson (event.body.getD "\x7b\x7d") with
  | none =>
    .ok ⟨some 400, jsonHeaders, some (Json.dumps (.obj [("message", .str "Invalid JSON")]))⟩
  | some _ =>
    .ok ⟨some 200, jsonHeaders, some (Json.dumps (.obj [("message", .str "Answer recorded")]))⟩

end submitAnswer

namespace generateReport

/-- `backend/lambdas/generateReport/lambda_function.py`, `lambda_handler`.
After a successful parse the code calls `body.get(...)`, which raises
`AttributeError` when the parsed value is not a dict. -/
def lambda_handler (event : Event) : Except String LambdaResult :=
  match parseJson (event.body.getD "\x7b\x7d") with
  | none =>
    .ok ⟨some 400, jsonHeaders, some (Json.dumps (.obj [("message", .str "Invalid JSON")]))⟩
  | some (.obj _) =>
    .ok ⟨some 200, jsonHeaders,
      some (Json.dumps (.obj [("message", .str "Report generation initiated")]))⟩
  | some _ => .error "AttributeError"

end generateReport

namespace getCalendar

/-- The hard-coded `SAMPLE_CALENDAR` list. -/
def SAMPLE_CALENDAR : List Json :=
  [.obj [("date", .str "2025-08-18"), ("event", .str "First day of school"),
         ("isSchoolDay", .bool true)],
   .obj [("date", .str "2025-09-02"), ("event", .str "Labor Day"),
         ("isSchoolDay", .bool false)],
   .obj [("date", .str "2025-12-20"), ("event", .str "Winter break begins"),
         ("isSchoolDay", .bool false)]]

/-- `backend/lambdas/getCalendar/lambda_function.py`, `lambda_handler`. -/
def lambda_handler (_event : Event) : Except String LambdaResult :=
  .ok ⟨some 200, jsonHeaders, some (Json.dumps (.obj [("calendar", .arr SAMPLE_CALENDAR)]))⟩

end getCalendar

namespace getLearningStyle

/-- The fixed profile for a student identifier. -/
def profile (studentId : String) : Json :=
  .obj [("studentId", .str studentId),
        ("preferredModalities", .arr [.str "visual", .str "hands-on"]),
        ("accuracy", .num 85 2),
        ("averageTimeSeconds", .num 12 0)]

/-- `backend/lambdas/getLearningStyle/lambda_function.py`, `lambda_handler`. -/
def lambda_handler (event : Event) : Except String LambdaResult :=
  let studentId := extractParam event "studentId" "unknown"
  .ok ⟨some 200, jsonHeaders, some (Json.dumps (profile studentId))⟩

end getLearningStyle

namespace aiTutor

/-- The canned reply both SDK wrappers return when their import failed. -/
def unableReply : String :=
  "I'm sorry, I'm unable to provide a response right now."

/-- The canned reply `invoke_openai` returns when the external call raises. -/
def couldNotThinkReply : String :=
  "I'm sorry, I couldn't think of an answer."

/-- `invoke_bedrock`: without `boto3` it logs and returns `unableReply`;
otherwise the external call's outcome decides (a raised exception
propagates to the caller as `Except.error`). -/
def invoke_bedrock (env : Env) (_prompt : String) : Except String String :=
  if env.boto3Available then env.bedrockCallResult else .ok unableReply

/-- `invoke_openai`: without the `openai` module it returns `unableReply`;
a failing external call is caught inside and replaced by
`couldNotThinkReply`, so this function never raises. -/
def invoke_openai (env : Env) (_prompt : String) : String :=
  if env.openaiAvailable then
    match env.openaiCallResult with
    | .ok s => s
    | .error _ => couldNotThinkReply
  else unableReply

/-- The natural-language prompt `lambda_handler` composes. -/
def promptText (grade subject question studentAnswer correctAnswer : Option Json) : String :=
  "You are a friendly and patient teacher for a " ++ pyStrOpt grade
    ++ "-grade student. The student is learning " ++ pyStrOpt subject
    ++ ". They were asked: '" ++ pyStrOpt question
    ++ "'. They answered: '" ++ pyStrOpt studentAnswer
    ++ "'. The correct answer is: '" ++ pyStrOpt correctAnswer
    ++ "'. Please provide feedback: if the student's answer is correct, praise "
    ++ "them and briefly explain why. If it is incorrect, gently explain the correct "
    ++ "answer and encourage the student to keep trying. Keep the language simple and age-appropriate."

/-- `backend/lambdas/aiTutor/lambda_function.py`, `lambda_handler`. -/
def lambda_handler (env : Env) (event : Event) : Except String LambdaResult :=
  match parseJson (event.body.getD "\x7b\x7d") with
  | none =>
    .ok ⟨some 400, jsonHeaders, some (Json.dumps (.obj [("message", .str "Invalid JSON")]))⟩
  | some (.obj kvs) =>
    let grade := pyGet kvs "grade"
    let subject := pyGet kvs "subject"
    let question := pyGet kvs "question"
    let studentAnswer := pyGet kvs "studentAnswer"
    let correctAnswer := pyGet kvs "correctAnswer"
    let explanation : String :=
      match assocLookup kvs "explanation" with
      | some v => pyStr v
      | none => ""
    let prompt := promptText grade subject question studentAnswer correctAnswer
    let provider := pyLower (env.aiProvider.getD "none")
    let responseText : Option String :=
      if provider = "bedrock" then
        match invoke_bedrock env prompt with
        | .ok s => some s
        | .error _ => none
      else if provider = "openai" then some (invoke_openai env prompt)
      else none
    -- `if not response_text:` — both `None` and the empty string fall back
    let finalText : String :=
      match responseText with
      | some s =>
        if s = "" then
          if pyEqOpt studentAnswer correctAnswer then
            "Great job! '" ++ pyStrOpt studentAnswer ++ "' is correct. "
              ++ explanation ++ " Keep up the good work!"
          else
            "Good try! The correct answer is '" ++ pyStrOpt correctAnswer ++ "'. "
              ++ explanation ++ " You'll get it next time!"
        else s
      | none =>
        if pyEqOpt studentAnswer correctAnswer then
          "Great job! '" ++ pyStrOpt studentAnswer ++ "' is correct. "
            ++ explanation ++ " Keep up the good work!"
        else
          "Good try! The correct answer is '" ++ pyStrOpt correctAnswer ++ "'. "
            ++ explanation ++ " You'll get it next time!"
    .ok ⟨some 200, jsonHeaders, some (Json.dumps (.obj [("response", .str finalText)]))⟩
  | some _ => .error "AttributeError"

end aiTutor

/-! ## The Flask router (`backend/app.py`) -/

/-- `call_lambda`: run the handler, default `statusCode` to `200` and
`body` to `"{}"`, parse the body as JSON, wrapping an unparsable body as
`{"message": body}`. -/
def call_lambda (handler : Event → Except String LambdaResult) (event : Event) :
    Except String (Nat × Json) :=
  match handler event with
  | .error e => .error e
  | .ok result =>
    let status := result.statusCode.getD 200
    let bodyStr := result.body.getD "\x7b\x7d"
    let jsonBody : Json :=
      match parseJson bodyStr with
      | some j => j
      | none => .obj [("message", .str bodyStr)]
    .ok (status, jsonBody)

/-- `GET /lessons`: event from `request.args.to_dict() or None`. -/
def lessons_route (catalog : getLessons.Catalog) (dayOfYear : Nat) (dateStr : String)
    (args : List (String × String)) : Except String (Nat × Json) :=
  call_lambda (getLessons.lambda_handler catalog dayOfYear dateStr)
    ⟨if args.isEmpty then none else some args, none⟩

/-- `POST /ai`: event from the raw request body. -/
def ai_route (env : Env) (rawBody : String) : Except String (Nat × Json) :=
  call_lambda (aiTutor.lambda_handler env) ⟨none, some rawBody⟩

/-- `POST /answer`: event from the raw request body. -/
def answer_route (rawBody : String) : Except String (Nat × Json) :=
  call_lambda submitAnswer.lambda_handler ⟨none, some rawBody⟩

/-- `POST /report`: event from the raw request body. -/
def report_route (rawBody : String) : Except String (Nat × Json) :=
  call_lambda generateReport.lambda_handler ⟨none, some rawBody⟩

/-- `GET /calendar`: the route passes an empty event, whatever the incoming
query parameters. -/
def calendar_route (_args : List (String × String)) : Except String (Nat × Json) :=
  call_lambda getCalendar.lambda_handler ⟨none, none⟩

/-- `GET /learning-style`: the route passes an empty event; incoming query
parameters are not forwarded to the handler. -/
def learning_style_route (_args : List (String × String)) : Except String (Nat × Json) :=
  call_lambda getLearningStyle.lambda_handler ⟨none, none⟩

/-- The response envelope invariant: a handler call returned (no exception)
a result whose status code is 200, 400 or 404, whose headers carry the JSON
content type, and whose body is a string `json.loads` accepts. -/
def ResponseWellFormed (res : Except String LambdaResult) : Prop :=
  ∃ r : LambdaResult, res = .ok r
    ∧ (r.statusCode = some 200 ∨ r.statusCode = some 400 ∨ r.statusCode = some 404)
    ∧ r.headers = jsonHeaders
    ∧ ∃ (b : String) (j : Json), r.body = some b ∧ parseJson b = some j

/-! ## Parser lemmas: `json.dumps` output parses back

The response invariant (every handler body is a string `json.loads`
accepts) needs the parser to succeed on serialised output even when the
serialised value embeds arbitrary request strings.  The lemmas below treat
one grammar production each and compose along the concrete response
shapes. -/

/-- Reading back a hex digit this development printed. -/
theorem hexVal_hexDigitChar : ∀ n : Nat, n < 16 → hexVal (hexDigitChar n) = some n := by
  decide

/-- The escape of one character followed by anything parses back to that
character: one step of the string-literal round trip. -/
theorem parseStrBody_escChar (c : Char) (tail : List Char) :
    parseStrBody (escChar c ++ tail) =
      (parseStrBody tail).map (fun p => (c :: p.1, p.2)) := by
  unfold escChar
  split_ifs with h1 h2 h3 h4 h5 h6 h7 h8
  · subst h1
    rw [parseStrBody.eq_def]
    simp
  · subst h2
    rw [parseStrBody.eq_def]
    simp
  · subst h3
    rw [parseStrBody.eq_def]
    simp
  · subst h4
    rw [parseStrBody.eq_def]
    simp
  · subst h5
    rw [parseStrBody.eq_def]
    simp
  · have hc : c = '\x08' := by
      have := Char.ofNat_toNat c
      rw [h6] at this
      exact this.symm
    subst hc
    rw [parseStrBody.eq_def]
    simp
  · have hc : c = '\x0c' := by
      have := Char.ofNat_toNat c
      rw [h7] at this
      exact this.symm
    subst hc
    rw [parseStrBody.eq_def]
    simp
  · -- the `\u00XX` escape of a remaining control character
    have hdiv : c.toNat / 16 < 16 := by omega
    have hmod : c.toNat % 16 < 16 := by omega
    have harith : 16 * (c.toNat / 16) + c.toNat % 16 = c.toNat := by
      omega
    rw [parseStrBody.eq_def]
    simp only [List.cons_append, List.nil_append]
    simp [hexVal_hexDigitChar _ hdiv, hexVal_hexDigitChar _ hmod,
          show hexVal '0' = some 0 by decide, harith, Char.ofNat_toNat]
  · -- an ordinary character is emitted and consumed verbatim
    show parseStrBody (c :: tail) = _
    rw [parseStrBody.eq_def]
    simp [h1, h2, show ¬c.toNat < 32 by omega]

/-- The string-literal round trip: an escaped body followed by the closing
quote parses back to the original characters. -/
theorem parseStrBody_escape (cs : List Char) (rest : List Char) :
    parseStrBody (escapeChars cs ++ '"' :: rest) = some (cs, rest) := by
  induction cs with
  | nil =>
    rw [show escapeChars [] = [] from rfl, List.nil_append, parseStrBody.eq_def]
    simp
  | cons c cs ih =>
    rw [show escapeChars (c :: cs) = escChar c ++ escapeChars cs from rfl,
        List.append_assoc, parseStrBody_escChar, ih]
    rfl

/-- Skipping whitespace stops at a non-whitespace character. -/
theorem skipWs_cons_nonws (c : Char) (cs : List Char)
    (h : ¬(c = ' ' ∨ c = '\n' ∨ c = '\t' ∨ c = '\r')) : skipWs (c :: cs) = c :: cs := by
  rw [skipWs.eq_def]
  simp [h]

/-- A leading blank is transparent to the value parser. -/
theorem parseValue_ws (f : Nat) (cs : List Char) :
    parseValue f (' ' :: cs) = parseValue f cs := by
  rw [parseValue.eq_def]
  cases f with
  | zero => rfl
  | succ f =>
    dsimp only
    rw [show skipWs (' ' :: cs) = skipWs cs from by rw [skipWs.eq_def]; simp]
    conv_rhs => rw [parseValue.eq_def]

/-- A leading blank is transparent to the element parser. -/
theorem parseElems_ws (f : Nat) (cs : List Char) :
    parseElems f (' ' :: cs) = parseElems f cs := by
  rw [parseElems.eq_def]
  cases f with
  | zero => rfl
  | succ f =>
    dsimp only
    rw [parseValue_ws]
    conv_rhs => rw [parseElems.eq_def]

/-- A serialised string literal parses back, leaving the rest untouched. -/
theorem parseValue_str (f : Nat) (s : String) (rest : List Char) :
    parseValue (f + 1) ('"' :: (escapeChars s.data ++ '"' :: rest)) =
      some (.str s, rest) := by
  obtain ⟨sd⟩ := s
  rw [parseValue.eq_def]
  dsimp only
  rw [skipWs_cons_nonws '"' _ (by decide)]
  simp [parseStrBody_escape]

/-- A serialised `true` parses back. -/
theorem parseValue_true (f : Nat) (rest : List Char) :
    parseValue (f + 1) ('t' :: 'r' :: 'u' :: 'e' :: rest) = some (.bool true, rest) := by
  rw [parseValue.eq_def]
  dsimp only
  rw [skipWs_cons_nonws 't' _ (by decide)]
  simp

/-- A serialised `false` parses back. -/
theorem parseValue_false (f : Nat) (rest : List Char) :
    parseValue (f + 1) ('f' :: 'a' :: 'l' :: 's' :: 'e' :: rest) =
      some (.bool false, rest) := by
  rw [parseValue.eq_def]
  dsimp only
  rw [skipWs_cons_nonws 'f' _ (by decide)]
  simp

/-- A serialised `null` parses back. -/
theorem parseValue_null (f : Nat) (rest : List Char) :
    parseValue (f + 1) ('n' :: 'u' :: 'l' :: 'l' :: rest) = some (Json.null, rest) := by
  rw [parseValue.eq_def]
  dsimp only
  rw [skipWs_cons_nonws 'n' _ (by decide)]
  simp

/-- The serialised `0.85` of the fixed profile parses back (up to the comma
that always follows it). -/
theorem parseValue_num_085 (f : Nat) (rest : List Char) :
    parseValue (f + 1) ('0' :: '.' :: '8' :: '5' :: ',' :: rest) =
      some (.num 85 2, ',' :: rest) := by
  rw [parseValue.eq_def]
  dsimp only
  rw [skipWs_cons_nonws '0' _ (by decide)]
  simp [parseNumber, takeDigits, isDigitChar, digitsToNat]

/-- The serialised `12` of the fixed profile parses back (up to the brace
that always follows it). -/
theorem parseValue_num_12 (f : Nat) (rest : List Char) :
    parseValue (f + 1) ('1' :: '2' :: '\x7d' :: rest) =
      some (.num 12 0, '\x7d' :: rest) := by
  rw [parseValue.eq_def]
  dsimp only
  rw [skipWs_cons_nonws '1' _ (by decide)]
  simp [parseNumber, takeDigits, isDigitChar, digitsToNat]

/-- A last serialised member, closed by the object brace, parses back:
`"key": value}` yields the singleton member list. -/
theorem parseMembers_last (f : Nat) (k : String) (v : Json) (vchars rest : List Char)
    (hv : parseValue f (vchars ++ '\x7d' :: rest) = some (v, '\x7d' :: rest)) :
    parseMembers (f + 1)
        ('"' :: (escapeChars k.data ++ '"' :: ':' :: ' ' :: (vchars ++ '\x7d' :: rest))) =
      some ([(k, v)], rest) := by
  obtain ⟨kd⟩ := k
  rw [parseMembers.eq_def]
  simp only [parseStrBody_escape]
  rw [skipWs_cons_nonws ':' _ (by decide)]
  simp only [parseValue_ws, hv, skipWs_cons_nonws '\x7d' _ (by decide)]

/-- A serialised member followed by a comma and further members parses back
and prepends its pair. -/
theorem parseMembers_cons (f : Nat) (k : String) (v : Json) (vchars T : List Char)
    (ps : List (String × Json)) (rest : List Char)
    (hv : parseValue f (vchars ++ ',' :: ' ' :: '"' :: T) = some (v, ',' :: ' ' :: '"' :: T))
    (hm : parseMembers f ('"' :: T) = some (ps, rest)) :
    parseMembers (f + 1)
        ('"' :: (escapeChars k.data ++ '"' :: ':' :: ' ' :: (vchars ++ ',' :: ' ' :: '"' :: T))) =
      some ((k, v) :: ps, rest) := by
  obtain ⟨kd⟩ := k
  rw [parseMembers.eq_def]
  simp only [parseStrBody_escape]
  rw [skipWs_cons_nonws ':' _ (by decide)]
  simp only [parseValue_ws, hv, skipWs_cons_nonws ',' _ (by decide)]
  rw [show skipWs (' ' :: '"' :: T) = '"' :: T from by
        rw [skipWs.eq_def]
        simp
        exact skipWs_cons_nonws '"' _ (by decide)]
  simp only [hm]
  rfl

/-- A serialised object with at least one member parses back, deduplicating
keys the way `json.loads` builds its dict. -/
theorem parseValue_obj (f : Nat) (T : List Char) (ps : List (String × Json))
    (rest : List Char) (hm : parseMembers f ('"' :: T) = some (ps, rest)) :
    parseValue (f + 1) ('\x7b' :: '"' :: T) = some (.obj (dedupKeys ps), rest) := by
  rw [parseValue.eq_def]
  dsimp only
  rw [skipWs_cons_nonws '\x7b' _ (by decide)]
  simp [skipWs_cons_nonws '"' _ (by decide), hm]

/-- A last serialised array element, closed by the bracket, parses back. -/
theorem parseElems_last (f : Nat) (v : Json) (vchars rest : List Char)
    (hv : parseValue f (vchars ++ ']' :: rest) = some (v, ']' :: rest)) :
    parseElems (f + 1) (vchars ++ ']' :: rest) = some ([v], rest) := by
  rw [parseElems.eq_def]
  dsimp only
  simp only [hv, skipWs_cons_nonws ']' _ (by decide)]

/-- A serialised array element followed by a comma and further elements
parses back and prepends its value. -/
theorem parseElems_cons (f : Nat) (v : Json) (vchars T : List Char)
    (xs : List Json) (rest : List Char)
    (hv : parseValue f (vchars ++ ',' :: ' ' :: T) = some (v, ',' :: ' ' :: T))
    (he : parseElems f T = some (xs, rest)) :
    parseElems (f + 1) (vchars ++ ',' :: ' ' :: T) = some (v :: xs, rest) := by
  rw [parseElems.eq_def]
  dsimp only
  simp only [hv, skipWs_cons_nonws ',' _ (by decide)]
  simp only [parseElems_ws, he]
  rfl

/-- A serialised non-empty array whose first element is a string literal
parses back. -/
theorem parseValue_arr_quote (f : Nat) (T : List Char) (xs : List Json)
    (rest : List Char) (he : parseElems f ('"' :: T) = some (xs, rest)) :
    parseValue (f + 1) ('[' :: '"' :: T) = some (.arr xs, rest) := by
  rw [parseValue.eq_def]
  dsimp only
  rw [skipWs_cons_nonws '[' _ (by decide)]
  simp [skipWs_cons_nonws '"' _ (by decide), he]

/-- A serialised non-empty array whose first element is an object parses
back. -/
theorem parseValue_arr_brace (f : Nat) (T : List Char) (xs : List Json)
    (rest : List Char) (he : parseElems f ('\x7b' :: T) = some (xs, rest)) :
    parseValue (f + 1) ('[' :: '\x7b' :: T) = some (.arr xs, rest) := by
  rw [parseValue.eq_def]
  dsimp only
  rw [skipWs_cons_nonws '[' _ (by decide)]
  simp [skipWs_cons_nonws '\x7b' _ (by decide), he]

/-- The rendering of a string value, with a trailing continuation. -/
theorem dumpsChars_str_append (s : String) (r : List Char) :
    Json.dumpsChars (.str s) ++ r = '"' :: (escapeChars s.data ++ '"' :: r) := by
  simp [Json.dumpsChars]

/-- A serialised string value parses back ahead of any continuation. -/
theorem parseValue_dumps_str (f : Nat) (s : String) (r : List Char) :
    parseValue (f + 1) (Json.dumpsChars (.str s) ++ r) = some (.str s, r) := by
  rw [dumpsChars_str_append]
  exact parseValue_str f s r

/-- A serialised one-member object with a string value parses back ahead of
any continuation: the common shape of the `message` and `response` bodies
and of a lesson record. -/
theorem parseValue_dumps_obj1 (f : Nat) (k s : String) (r : List Char) :
    parseValue (f + 3) (Json.dumpsChars (.obj [(k, .str s)]) ++ r) =
      some (.obj [(k, .str s)], r) := by
  have hchars : Json.dumpsChars (.obj [(k, .str s)]) ++ r =
      '\x7b' :: '"' :: (escapeChars k.data ++ '"' :: ':' :: ' ' ::
        (Json.dumpsChars (.str s) ++ '\x7d' :: r)) := by
    simp [Json.dumpsChars, dumpsMembersChars]
  rw [hchars]
  have hv := parseValue_dumps_str f s ('\x7d' :: r)
  have hm := parseMembers_last (f + 1) k (.str s) _ r hv
  have hobj := parseValue_obj (f + 2) _ _ _ hm
  rwa [show dedupKeys [(k, Json.str s)] = [(k, Json.str s)] from rfl] at hobj

/-- The serialised two-string array of the fixed profile parses back ahead
of any continuation. -/
theorem parseValue_dumps_arr2str (f : Nat) (a b : String) (r : List Char) :
    parseValue (f + 4) (Json.dumpsChars (.arr [.str a, .str b]) ++ r) =
      some (.arr [.str a, .str b], r) := by
  have hchars : Json.dumpsChars (.arr [.str a, .str b]) ++ r =
      '[' :: '"' :: (escapeChars a.data ++ '"' :: ',' :: ' ' ::
        (Json.dumpsChars (.str b) ++ ']' :: r)) := by
    simp [Json.dumpsChars, dumpsElemsChars]
  rw [hchars]
  have he2 := parseElems_last (f + 1) (.str b) _ r (parseValue_dumps_str f b (']' :: r))
  have hv1 := parseValue_dumps_str (f + 1) a
    (',' :: ' ' :: (Json.dumpsChars (.str b) ++ ']' :: r))
  have he1 := parseElems_cons (f + 2) (.str a) _ _ _ r hv1 he2
  rw [dumpsChars_str_append] at he1
  exact parseValue_arr_quote (f + 3) _ _ r he1

/-- A parse of a whole serialised document reduces to a parse of the value
with the fixed fuel budget and an empty remainder. -/
theorem parseJson_of_shape (D : Nat) (chars : List Char) (j : Json)
    (h : ∀ f, parseValue (f + D) chars = some (j, []))
    (hD : D ≤ 2 * chars.length + 2) :
    parseJson (String.mk chars) = some j := by
  unfold parseJson
  dsimp only
  obtain ⟨k, hk⟩ : ∃ k, 2 * chars.length + 2 = k + D :=
    ⟨2 * chars.length + 2 - D, by omega⟩
  rw [hk, h k]
  rfl

/-- The `message`/`response` bodies every handler emits parse back. -/
theorem parseJson_dumps_obj1 (k s : String) :
    parseJson (Json.dumps (.obj [(k, .str s)])) = some (.obj [(k, .str s)]) := by
  show parseJson (String.mk (Json.dumpsChars (.obj [(k, .str s)]))) = _
  refine parseJson_of_shape 3 _ _ (fun f => ?_) ?_
  · have := parseValue_dumps_obj1 f k s []
    rwa [List.append_nil] at this
  · simp [Json.dumpsChars, dumpsMembersChars, List.length_append]
    omega

/-- The serialised learning-style profile parses back, whatever the student
identifier. -/
theorem parseJson_dumps_profile (sid : String) :
    parseJson (Json.dumps (getLearningStyle.profile sid)) =
      some (getLearningStyle.profile sid) := by
  show parseJson (String.mk (Json.dumpsChars (getLearningStyle.profile sid))) = _
  refine parseJson_of_shape 7 _ _ (fun f => ?_) ?_
  · have hv4 : parseValue (f + 2) (Json.dumpsChars (.num 12 0) ++ '\x7d' :: []) =
        some (.num 12 0, '\x7d' :: []) := by
      rw [show Json.dumpsChars (Json.num 12 0) = ['1', '2'] from rfl]
      exact parseValue_num_12 (f + 1) []
    have hm4 := parseMembers_last (f + 2) "averageTimeSeconds" (.num 12 0)
      (Json.dumpsChars (.num 12 0)) [] hv4
    have hm3 := parseMembers_cons (f + 3) "accuracy" (.num 85 2)
      (Json.dumpsChars (.num 85 2)) _ _ []
      (by rw [show Json.dumpsChars (Json.num 85 2) = ['0', '.', '8', '5'] from rfl]
          exact parseValue_num_085 (f + 2) _) hm4
    have hm2 := parseMembers_cons (f + 4) "preferredModalities"
      (.arr [.str "visual", .str "hands-on"])
      (Json.dumpsChars (.arr [.str "visual", .str "hands-on"])) _ _ []
      (parseValue_dumps_arr2str f "visual" "hands-on" _) hm3
    have hm1 := parseMembers_cons (f + 5) "studentId" (.str sid)
      (Json.dumpsChars (.str sid)) _ _ []
      (parseValue_dumps_str (f + 4) sid _) hm2
    have hobj := parseValue_obj (f + 6) _ _ _ hm1
    rw [show Json.obj (dedupKeys
        [("studentId", Json.str sid),
         ("preferredModalities", Json.arr [Json.str "visual", Json.str "hands-on"]),
         ("accuracy", Json.num 85 2),
         ("averageTimeSeconds", Json.num 12 0)]) = getLearningStyle.profile sid from rfl,
        show f + 6 + 1 = f + 7 from by omega] at hobj
    simpa only [getLearningStyle.profile, Json.dumpsChars, dumpsMembersChars,
        dumpsElemsChars, List.cons_append, List.append_assoc, List.nil_append,
        List.append_nil, List.singleton_append] using hobj
  · simp [getLearningStyle.profile, Json.dumpsChars, dumpsMembersChars,
        dumpsElemsChars, List.length_append]
    omega

/-- A serialised two-subject lesson selection (the kindergarten shape)
parses back ahead of any continuation. -/
theorem parseValue_dumps_lessonsK (f : Nat) (t1 t2 : String) (r : List Char) :
    parseValue (f + 7) (Json.dumpsChars
        (.obj [("Math", .obj [("title", .str t1)]),
               ("Reading", .obj [("title", .str t2)])]) ++ r) =
      some (.obj [("Math", .obj [("title", .str t1)]),
                  ("Reading", .obj [("title", .str t2)])], r) := by
  have hm2 := parseMembers_last (f + 4) "Reading" (.obj [("title", .str t2)])
    (Json.dumpsChars (.obj [("title", .str t2)])) r
    (parseValue_dumps_obj1 (f + 1) "title" t2 _)
  have hm1 := parseMembers_cons (f + 5) "Math" (.obj [("title", .str t1)])
    (Json.dumpsChars (.obj [("title", .str t1)])) _ _ r
    (parseValue_dumps_obj1 (f + 2) "title" t1 _) hm2
  have hobj := parseValue_obj (f + 6) _ _ _ hm1
  rw [show Json.obj (dedupKeys
      [("Math", Json.obj [("title", Json.str t1)]),
       ("Reading", Json.obj [("title", Json.str t2)])]) =
      Json.obj [("Math", Json.obj [("title", Json.str t1)]),
                ("Reading", Json.obj [("title", Json.str t2)])] from rfl,
      show f + 6 + 1 = f + 7 from by omega] at hobj
  simpa only [Json.dumpsChars, dumpsMembersChars, dumpsElemsChars, List.cons_append,
      List.append_assoc, List.nil_append, List.append_nil, List.singleton_append] using hobj

/-- A serialised one-subject lesson selection (the first-grade shape) parses
back ahead of any continuation. -/
theorem parseValue_dumps_lessons1 (f : Nat) (t : String) (r : List Char) :
    parseValue (f + 5) (Json.dumpsChars
        (.obj [("Science", .obj [("title", .str t)])]) ++ r) =
      some (.obj [("Science", .obj [("title", .str t)])], r) := by
  have hm := parseMembers_last (f + 3) "Science" (.obj [("title", .str t)])
    (Json.dumpsChars (.obj [("title", .str t)])) r
    (parseValue_dumps_obj1 f "title" t _)
  have hobj := parseValue_obj (f + 4) _ _ _ hm
  rw [show Json.obj (dedupKeys [("Science", Json.obj [("title", Json.str t)])]) =
      Json.obj [("Science", Json.obj [("title", Json.str t)])] from rfl,
      show f + 4 + 1 = f + 5 from by omega] at hobj
  simpa only [Json.dumpsChars, dumpsMembersChars, dumpsElemsChars, List.cons_append,
      List.append_assoc, List.nil_append, List.append_nil, List.singleton_append] using hobj

/-- A serialised lessons response body (date, grade, per-subject selection)
parses back, given a parse lemma for the selection value. -/
theorem parseJson_dumps_lessonsBody (d g : String) (lv : Json) (dl : Nat)
    (hlv : ∀ f r, parseValue (f + dl) (Json.dumpsChars lv ++ r) = some (lv, r))
    (hD : dl + 4 ≤ 2 * (Json.dumpsChars
        (.obj [("date", .str d), ("grade", .str g), ("lessons", lv)])).length + 2) :
    parseJson (Json.dumps (.obj [("date", .str d), ("grade", .str g), ("lessons", lv)])) =
      some (.obj [("date", .str d), ("grade", .str g), ("lessons", lv)]) := by
  show parseJson (String.mk (Json.dumpsChars
      (.obj [("date", .str d), ("grade", .str g), ("lessons", lv)]))) = _
  refine parseJson_of_shape (dl + 4) _ _ (fun f => ?_) hD
  have hm3 := parseMembers_last (f + dl) "lessons" lv (Json.dumpsChars lv) []
    (hlv f ('\x7d' :: []))
  have hm2 := parseMembers_cons (f + dl + 1) "grade" (.str g)
    (Json.dumpsChars (.str g)) _ _ []
    (parseValue_dumps_str (f + dl) g _) hm3
  have hm1 := parseMembers_cons (f + dl + 2) "date" (.str d)
    (Json.dumpsChars (.str d)) _ _ []
    (parseValue_dumps_str (f + dl + 1) d _) hm2
  have hobj := parseValue_obj (f + dl + 3) _ _ _ hm1
  rw [show Json.obj (dedupKeys
      [("date", Json.str d), ("grade", Json.str g), ("lessons", lv)]) =
      Json.obj [("date", Json.str d), ("grade", Json.str g), ("lessons", lv)] from rfl,
      show f + dl + 3 + 1 = f + (dl + 4) from by omega] at hobj
  simpa only [Json.dumpsChars, dumpsMembersChars, dumpsElemsChars, List.cons_append,
      List.append_assoc, List.nil_append, List.append_nil, List.singleton_append] using hobj

/-- Discharge the envelope invariant from an explicit result equation, a
status-code case, and a parse of the serialised body. -/
theorem responseWellFormed_of (res : Except String LambdaResult) (code : Nat)
    (body j : Json) (hres : res = .ok ⟨some code, jsonHeaders, some (Json.dumps body)⟩)
    (hcode : code = 200 ∨ code = 400 ∨ code = 404)
    (hparse : parseJson (Json.dumps body) = some j) : ResponseWellFormed res := by
  refine ⟨⟨some code, jsonHeaders, some (Json.dumps body)⟩, hres, ?_, rfl,
    Json.dumps body, j, rfl, hparse⟩
  rcases hcode with h | h | h <;> subst h
  · exact Or.inl rfl
  · exact Or.inr (Or.inl rfl)
  · exact Or.inr (Or.inr rfl)

/-- Any event whose body parses as a JSON object drives the AI tutor to a
200 response whose body serialises a single `response` string. -/
theorem aiTutor_obj_response (env : Env) (event : Event)
    (kvs : List (String × Json))
    (hparse : parseJson (event.body.getD "\x7b\x7d") = some (.obj kvs)) :
    ∃ t : String, aiTutor.lambda_handler env event =
      .ok ⟨some 200, jsonHeaders, some (Json.dumps (.obj [("response", .str t)]))⟩ := by
  unfold aiTutor.lambda_handler
  rw [hparse]
  exact ⟨_, rfl⟩

/-- C9: for every event whose body (defaulting to the empty object) either
fails to parse as JSON or parses to a JSON object, each of the six routed
handlers returns a result — no exception — whose status code is 200, 400 or
404, whose headers map Content-Type to application/json, and whose body
string itself parses as valid JSON. -/
theorem handlers_response_envelope (env : Env) (event : Event) (day : Nat)
    (dateStr : String)
    (hbody : parseJson (event.body.getD "\x7b\x7d") = none ∨
      ∃ kvs, parseJson (event.body.getD "\x7b\x7d") = some (.obj kvs)) :
    ResponseWellFormed
        (getLessons.lambda_handler getLessons.specCatalog day dateStr event)
    ∧ ResponseWellFormed (aiTutor.lambda_handler env event)
    ∧ ResponseWellFormed (submitAnswer.lambda_handler event)
    ∧ ResponseWellFormed (generateReport.lambda_handler event)
    ∧ ResponseWellFormed (getCalendar.lambda_handler event)
    ∧ ResponseWellFormed (getLearningStyle.lambda_handler event) := by
  refine ⟨?_, ?_, ?_, ?_, ?_, ?_⟩
  · -- getLessons
    rcases eq_or_ne (extractParam event "grade" "K") "K" with hgK | hgK
    · rcases (by omega : day % 2 = 0 ∨ day % 2 = 1) with h2 | h2
      · have hres : getLessons.lambda_handler getLessons.specCatalog day dateStr event =
            .ok ⟨some 200, jsonHeaders, some (Json.dumps (.obj
              [("date", .str dateStr), ("grade", .str "K"),
               ("lessons", .obj
                 [("Math", [Json.obj [("title", .str "Counting to 10")],
                            Json.obj [("title", .str "Shapes around us")]].getD
                     (day % 2) Json.null),
                  ("Reading", [Json.obj [("title", .str "Letter sounds")]].getD
                     (day % 1) Json.null)])]))⟩ := by
          unfold getLessons.lambda_handler
          rw [hgK]
          rfl
        rw [h2, Nat.mod_one] at hres
        exact responseWellFormed_of _ 200
          (.obj [("date", .str dateStr), ("grade", .str "K"),
                 ("lessons", .obj [("Math", .obj [("title", .str "Counting to 10")]),
                                   ("Reading", .obj [("title", .str "Letter sounds")])])])
          _ hres (Or.inl rfl)
          (parseJson_dumps_lessonsBody dateStr "K" _ 7
            (fun f r => parseValue_dumps_lessonsK f "Counting to 10" "Letter sounds" r)
            (by simp [Json.dumpsChars, dumpsMembersChars, dumpsElemsChars,
                  List.length_append]
                omega))
      · have hres : getLessons.lambda_handler getLessons.specCatalog day dateStr event =
            .ok ⟨some 200, jsonHeaders, some (Json.dumps (.obj
              [("date", .str dateStr), ("grade", .str "K"),
               ("lessons", .obj
                 [("Math", [Json.obj [("title", .str "Counting to 10")],
                            Json.obj [("title", .str "Shapes around us")]].getD
                     (day % 2) Json.null),
                  ("Reading", [Json.obj [("title", .str "Letter sounds")]].getD
                     (day % 1) Json.null)])]))⟩ := by
          unfold getLessons.lambda_handler
          rw [hgK]
          rfl
        rw [h2, Nat.mod_one] at hres
        exact responseWellFormed_of _ 200
          (.obj [("date", .str dateStr), ("grade", .str "K"),
                 ("lessons", .obj [("Math", .obj [("title", .str "Shapes around us")]),
                                   ("Reading", .obj [("title", .str "Letter sounds")])])])
          _ hres (Or.inl rfl)
          (parseJson_dumps_lessonsBody dateStr "K" _ 7
            (fun f r => parseValue_dumps_lessonsK f "Shapes around us" "Letter sounds" r)
            (by simp [Json.dumpsChars, dumpsMembersChars, dumpsElemsChars,
                  List.length_append]
                omega))
    · rcases eq_or_ne (extractParam event "grade" "K") "1" with hg1 | hg1
      · have hres : getLessons.lambda_handler getLessons.specCatalog day dateStr event =
            .ok ⟨some 200, jsonHeaders, some (Json.dumps (.obj
              [("date", .str dateStr), ("grade", .str "1"),
               ("lessons", .obj
                 [("Science", [Json.obj [("title", .str "Living things")]].getD
                     (day % 1) Json.null)])]))⟩ := by
          unfold getLessons.lambda_handler
          rw [hg1]
          rfl
        rw [Nat.mod_one] at hres
        exact responseWellFormed_of _ 200
          (.obj [("date", .str dateStr), ("grade", .str "1"),
                 ("lessons", .obj [("Science", .obj [("title", .str "Living things")])])])
          _ hres (Or.inl rfl)
          (parseJson_dumps_lessonsBody dateStr "1" _ 5
            (fun f r => parseValue_dumps_lessons1 f "Living things" r)
            (by simp [Json.dumpsChars, dumpsMembersChars, dumpsElemsChars,
                  List.length_append]
                omega))
      · have habs : assocLookup getLessons.specCatalog
            (extractParam event "grade" "K") = none := by
          simp [getLessons.specCatalog, assocLookup, Ne.symm hgK, Ne.symm hg1]
        have hres : getLessons.lambda_handler getLessons.specCatalog day dateStr event =
            .ok ⟨some 404, jsonHeaders, some (Json.dumps (.obj
              [("message", .str ("No lessons found for grade "
                ++ extractParam event "grade" "K"))]))⟩ := by
          unfold getLessons.lambda_handler
          dsimp only
          rw [habs]
        exact responseWellFormed_of _ 404
          (.obj [("message", .str ("No lessons found for grade "
            ++ extractParam event "grade" "K"))])
          _ hres (Or.inr (Or.inr rfl)) (parseJson_dumps_obj1 "message" _)
  · -- aiTutor
    rcases hbody with hn | ⟨kvs, hk⟩
    · have hres : aiTutor.lambda_handler env event =
          .ok ⟨some 400, jsonHeaders,
            some (Json.dumps (.obj [("message", .str "Invalid JSON")]))⟩ := by
        unfold aiTutor.lambda_handler
        rw [hn]
      exact responseWellFormed_of _ 400 (.obj [("message", .str "Invalid JSON")])
        _ hres (Or.inr (Or.inl rfl)) (parseJson_dumps_obj1 "message" _)
    · obtain ⟨t, ht⟩ := aiTutor_obj_response env event kvs hk
      exact responseWellFormed_of _ 200 (.obj [("response", .str t)])
        _ ht (Or.inl rfl) (parseJson_dumps_obj1 "response" t)
  · -- submitAnswer
    cases hp : parseJson (event.body.getD "\x7b\x7d") with
    | none =>
      have hres : submitAnswer.lambda_handler event =
          .ok ⟨some 400, jsonHeaders,
            some (Json.dumps (.obj [("message", .str "Invalid JSON")]))⟩ := by
        unfold submitAnswer.lambda_handler
        rw [hp]
      exact responseWellFormed_of _ 400 (.obj [("message", .str "Invalid JSON")])
        _ hres (Or.inr (Or.inl rfl)) (parseJson_dumps_obj1 "message" _)
    | some j =>
      have hres : submitAnswer.lambda_handler event =
          .ok ⟨some 200, jsonHeaders,
            some (Json.dumps (.obj [("message", .str "Answer recorded")]))⟩ := by
        unfold submitAnswer.lambda_handler
        rw [hp]
      exact responseWellFormed_of _ 200 (.obj [("message", .str "Answer recorded")])
        _ hres (Or.inl rfl) (parseJson_dumps_obj1 "message" _)
  · -- generateReport
    rcases hbody with hn | ⟨kvs, hk⟩
    · have hres : generateReport.lambda_handler event =
          .ok ⟨some 400, jsonHeaders,
            some (Json.dumps (.obj [("message", .str "Invalid JSON")]))⟩ := by
        unfold generateReport.lambda_handler
        rw [hn]
      exact responseWellFormed_of _ 400 (.obj [("message", .str "Invalid JSON")])
        _ hres (Or.inr (Or.inl rfl)) (parseJson_dumps_obj1 "message" _)
    · have hres : generateReport.lambda_handler event =
          .ok ⟨some 200, jsonHeaders,
            some (Json.dumps (.obj [("message", .str "Report generation initiated")]))⟩ := by
        unfold generateReport.lambda_handler
        rw [hk]
      exact responseWellFormed_of _ 200
        (.obj [("message", .str "Report generation initiated")])
        _ hres (Or.inl rfl) (parseJson_dumps_obj1 "message" _)
  · -- getCalendar
    exact responseWellFormed_of _ 200 (.obj [("calendar", .arr getCalendar.SAMPLE_CALENDAR)])
      (.obj [("calendar", .arr getCalendar.SAMPLE_CALENDAR)]) rfl (Or.inl rfl) rfl
  · -- getLearningStyle
    exact responseWellFormed_of _ 200
      (getLearningStyle.profile (extractParam event "studentId" "unknown"))
      _ rfl (Or.inl rfl) (parseJson_dumps_profile _)

/-- C9 witness: a provider-free environment and an event with no body. -/
theorem handlers_response_envelope_witness :
    ResponseWellFormed
        (getLessons.lambda_handler getLessons.specCatalog 1 "2025-01-01" ⟨none, none⟩)
    ∧ ResponseWellFormed
        (aiTutor.lambda_handler ⟨none, true, true, .ok "", .ok ""⟩ ⟨none, none⟩)
    ∧ ResponseWellFormed (submitAnswer.lambda_handler ⟨none, none⟩)
    ∧ ResponseWellFormed (generateReport.lambda_handler ⟨none, none⟩)
    ∧ ResponseWellFormed (getCalendar.lambda_handler ⟨none, none⟩)
    ∧ ResponseWellFormed (getLearningStyle.lambda_handler ⟨none, none⟩) :=
  handlers_response_envelope ⟨none, true, true, .ok "", .ok ""⟩ ⟨none, none⟩ 1 "2025-01-01"
    (Or.inr ⟨[], rfl⟩)

/-! ## Claims about the lessons handler -/

/-- C1: for every grade present in the lesson catalog (modelled from the
spec, `lessons.json` not being among the sources), the lessons handler
returns status 200 with one selected entry per subject, the entry at index
(day-of-year mod length of that subject's lesson list). -/
theorem lessons_selects_day_of_year_mod (grade : String) (gl : List (String × List Json))
    (day : Nat) (dateStr : String)
    (hlook : assocLookup getLessons.specCatalog grade = some gl) :
    getLessons.lambda_handler getLessons.specCatalog day dateStr
        ⟨some [("grade", grade)], none⟩ =
      .ok ⟨some 200, jsonHeaders, some (Json.dumps (.obj
        [("date", .str dateStr), ("grade", .str grade),
         ("lessons", .obj (gl.map fun p =>
            (p.1, p.2.getD (day % p.2.length) Json.null)))]))⟩ := by
  rcases eq_or_ne grade "K" with hK | hK
  · subst hK
    have hgl : gl = getLessons.kLessons := by
      have h' : some getLessons.kLessons = some gl := by
        rw [← hlook]
        rfl
      exact (Option.some.inj h').symm
    subst hgl
    rfl
  · rcases eq_or_ne grade "1" with h1 | h1
    · subst h1
      have hgl : gl = getLessons.g1Lessons := by
        have h' : some getLessons.g1Lessons = some gl := by
          rw [← hlook]
          rfl
        exact (Option.some.inj h').symm
      subst hgl
      rfl
    · exfalso
      rw [show assocLookup getLessons.specCatalog grade = none from by
        simp [getLessons.specCatalog, assocLookup, Ne.symm hK, Ne.symm h1]] at hlook
      exact Option.noConfusion hlook

/-- C1 witness: on the spec catalog's two-entry Math list for grade `K`,
day-of-year 1 selects index 1 and day-of-year 2 selects index 0. -/
theorem lessons_selects_day_of_year_mod_witness :
    getLessons.lambda_handler getLessons.specCatalog 1 "2025-01-01"
        ⟨some [("grade", "K")], none⟩ =
      .ok ⟨some 200, jsonHeaders, some (Json.dumps (.obj
        [("date", .str "2025-01-01"), ("grade", .str "K"),
         ("lessons", .obj
           [("Math", .obj [("title", .str "Shapes around us")]),
            ("Reading", .obj [("title", .str "Letter sounds")])])]))⟩
    ∧ getLessons.lambda_handler getLessons.specCatalog 2 "2025-01-02"
        ⟨some [("grade", "K")], none⟩ =
      .ok ⟨some 200, jsonHeaders, some (Json.dumps (.obj
        [("date", .str "2025-01-02"), ("grade", .str "K"),
         ("lessons", .obj
           [("Math", .obj [("title", .str "Counting to 10")]),
            ("Reading", .obj [("title", .str "Letter sounds")])])]))⟩ :=
  ⟨lessons_selects_day_of_year_mod "K" getLessons.kLessons 1 "2025-01-01" rfl,
   lessons_selects_day_of_year_mod "K" getLessons.kLessons 2 "2025-01-02" rfl⟩

/-- C6: a requested grade absent from the catalog yields a 404 response
whose JSON body says no lessons were found for that grade. -/
theorem lessons_absent_grade_404 (catalog : getLessons.Catalog) (dayOfYear : Nat)
    (dateStr : String) (grade : String) (hg : grade ≠ "")
    (habs : assocLookup catalog grade = none) :
    getLessons.lambda_handler catalog dayOfYear dateStr ⟨some [("grade", grade)], none⟩ =
      .ok ⟨some 404, jsonHeaders,
        some (Json.dumps (.obj
          [("message", .str ("No lessons found for grade " ++ grade))]))⟩ := by
  unfold getLessons.lambda_handler extractParam
  simp [assocLookup, hg, habs]

/-- C6 witness: grade `Z` against an empty catalog. -/
theorem lessons_absent_grade_404_witness :
    getLessons.lambda_handler [] 5 "2025-01-01" ⟨some [("grade", "Z")], none⟩ =
      .ok ⟨some 404, jsonHeaders,
        some (Json.dumps (.obj
          [("message", .str ("No lessons found for grade " ++ "Z"))]))⟩ :=
  lessons_absent_grade_404 [] 5 "2025-01-01" "Z" (by decide) rfl

/-! ## Claims about the answer-submission and report handlers -/

/-- C5 counterexample: `"5"` is valid JSON, yet the report handler raises
`AttributeError` (calling `.get` on an `int`) instead of returning the 200
acknowledgement the claim promises for every valid JSON body. -/
theorem report_valid_nonobject_crashes :
    parseJson "5" = some (.num 5 0)
    ∧ generateReport.lambda_handler ⟨none, some "5"⟩ = .error "AttributeError" :=
  ⟨rfl, rfl⟩

/-- C5 (amended): invalid JSON yields 400 with `Invalid JSON` from both
handlers; any valid JSON body yields 200 `Answer recorded` from the answer
handler; a valid JSON body that is an object yields 200
`Report generation initiated` from the report handler (a valid non-object
body makes the report handler raise instead). -/
theorem answer_report_parse_behaviour (s : String) :
    (parseJson s = none →
      submitAnswer.lambda_handler ⟨none, some s⟩ =
        .ok ⟨some 400, jsonHeaders,
          some (Json.dumps (.obj [("message", .str "Invalid JSON")]))⟩
      ∧ generateReport.lambda_handler ⟨none, some s⟩ =
        .ok ⟨some 400, jsonHeaders,
          some (Json.dumps (.obj [("message", .str "Invalid JSON")]))⟩)
    ∧ (∀ j, parseJson s = some j →
      submitAnswer.lambda_handler ⟨none, some s⟩ =
        .ok ⟨some 200, jsonHeaders,
          some (Json.dumps (.obj [("message", .str "Answer recorded")]))⟩)
    ∧ (∀ kvs, parseJson s = some (.obj kvs) →
      generateReport.lambda_handler ⟨none, some s⟩ =
        .ok ⟨some 200, jsonHeaders,
          some (Json.dumps (.obj [("message", .str "Report generation initiated")]))⟩) := by
  refine ⟨fun h => ⟨?_, ?_⟩, fun j h => ?_, fun kvs h => ?_⟩
  · unfold submitAnswer.lambda_handler
    rw [show (Event.body ⟨none, some s⟩).getD "\x7b\x7d" = s from rfl, h]
  · unfold generateReport.lambda_handler
    rw [show (Event.body ⟨none, some s⟩).getD "\x7b\x7d" = s from rfl, h]
  · unfold submitAnswer.lambda_handler
    rw [show (Event.body ⟨none, some s⟩).getD "\x7b\x7d" = s from rfl, h]
  · unfold generateReport.lambda_handler
    rw [show (Event.body ⟨none, some s⟩).getD "\x7b\x7d" = s from rfl, h]

/-- C5 witness: an unparsable body, a valid array body, and a valid object
body demonstrate all three branches. -/
theorem answer_report_parse_behaviour_witness :
    (submitAnswer.lambda_handler ⟨none, some "notjson"⟩ =
        .ok ⟨some 400, jsonHeaders,
          some (Json.dumps (.obj [("message", .str "Invalid JSON")]))⟩
      ∧ generateReport.lambda_handler ⟨none, some "notjson"⟩ =
        .ok ⟨some 400, jsonHeaders,
          some (Json.dumps (.obj [("message", .str "Invalid JSON")]))⟩)
    ∧ submitAnswer.lambda_handler ⟨none, some "[1]"⟩ =
        .ok ⟨some 200, jsonHeaders,
          some (Json.dumps (.obj [("message", .str "Answer recorded")]))⟩
    ∧ generateReport.lambda_handler ⟨none, some "\x7b\x7d"⟩ =
        .ok ⟨some 200, jsonHeaders,
          some (Json.dumps (.obj [("message", .str "Report generation initiated")]))⟩ :=
  ⟨(answer_report_parse_behaviour "notjson").1 rfl,
   (answer_report_parse_behaviour "[1]").2.1 (.arr [.num 1 0]) rfl,
   (answer_report_parse_behaviour "\x7b\x7d").2.2 [] rfl⟩

/-! ## Claims about the AI-tutor handler -/

/-- C2: with no provider configured, a JSON-object body yields the
deterministic fallback: the `Great job` template with the student answer
when the answers are Python-equal, the `Good try` template with the correct
answer otherwise. -/
theorem ai_no_provider_fallback_templates (env : Env) (s : String)
    (kvs : List (String × Json)) (hprov : env.aiProvider = none)
    (hparse : parseJson s = some (.obj kvs)) :
    aiTutor.lambda_handler env ⟨none, some s⟩ =
      .ok ⟨some 200, jsonHeaders, some (Json.dumps (.obj [("response", .str
        (if pyEqOpt (pyGet kvs "studentAnswer") (pyGet kvs "correctAnswer") then
          "Great job! '" ++ pyStrOpt (pyGet kvs "studentAnswer") ++ "' is correct. "
            ++ (match assocLookup kvs "explanation" with
                | some v => pyStr v
                | none => "")
            ++ " Keep up the good work!"
        else
          "Good try! The correct answer is '" ++ pyStrOpt (pyGet kvs "correctAnswer")
            ++ "'. "
            ++ (match assocLookup kvs "explanation" with
                | some v => pyStr v
                | none => "")
            ++ " You'll get it next time!"))]))⟩ := by
  unfold aiTutor.lambda_handler
  rw [show (Event.body ⟨none, some s⟩).getD "\x7b\x7d" = s from rfl, hparse, hprov]
  rfl

/-- C2 witness: matching answers give the `Great job` template, mismatched
answers the `Good try` template. -/
theorem ai_no_provider_fallback_templates_witness :
    aiTutor.lambda_handler ⟨none, true, true, .ok "", .ok ""⟩
        ⟨none, some "\x7b\"studentAnswer\": \"4\", \"correctAnswer\": \"4\", \"explanation\": \"2+2=4\"\x7d"⟩ =
      .ok ⟨some 200, jsonHeaders, some (Json.dumps (.obj [("response",
        .str "Great job! '4' is correct. 2+2=4 Keep up the good work!")]))⟩
    ∧ aiTutor.lambda_handler ⟨none, true, true, .ok "", .ok ""⟩
        ⟨none, some "\x7b\"studentAnswer\": \"3\", \"correctAnswer\": \"4\"\x7d"⟩ =
      .ok ⟨some 200, jsonHeaders, some (Json.dumps (.obj [("response",
        .str "Good try! The correct answer is '4'.  You'll get it next time!")]))⟩ :=
  ⟨ai_no_provider_fallback_templates ⟨none, true, true, .ok "", .ok ""⟩
     "\x7b\"studentAnswer\": \"4\", \"correctAnswer\": \"4\", \"explanation\": \"2+2=4\"\x7d"
     [("studentAnswer", .str "4"), ("correctAnswer", .str "4"), ("explanation", .str "2+2=4")]
     rfl rfl,
   ai_no_provider_fallback_templates ⟨none, true, true, .ok "", .ok ""⟩
     "\x7b\"studentAnswer\": \"3\", \"correctAnswer\": \"4\"\x7d"
     [("studentAnswer", .str "3"), ("correctAnswer", .str "4")]
     rfl rfl⟩

/-- C3 counterexample: provider `bedrock` with the SDK missing does not
fall back to the comparison template — `invoke_bedrock` returns the truthy
canned apology, which the handler passes straight through. -/
theorem ai_missing_sdk_returns_apology :
    aiTutor.lambda_handler ⟨some "bedrock", false, true, .ok "", .ok ""⟩
        ⟨none, some "\x7b\"studentAnswer\": \"1\", \"correctAnswer\": \"2\"\x7d"⟩ =
      .ok ⟨some 200, jsonHeaders,
        some (Json.dumps (.obj [("response", .str aiTutor.unableReply)]))⟩
    ∧ aiTutor.unableReply ≠
        "Good try! The correct answer is '2'.  You'll get it next time!" :=
  ⟨rfl, by decide⟩

/-- C3 (amended): a raised Bedrock call is swallowed into the comparison
template; a missing SDK (either provider) yields the canned apology, and a
failing OpenAI call yields its own canned reply — in every case status 200,
no error surfacing. -/
theorem ai_provider_failure_paths (s : String) (kvs : List (String × Json))
    (hparse : parseJson s = some (.obj kvs)) :
    (∀ env : Env, env.aiProvider = some "bedrock" → env.boto3Available = true →
      ∀ msg, env.bedrockCallResult = .error msg →
        aiTutor.lambda_handler env ⟨none, some s⟩ =
          .ok ⟨some 200, jsonHeaders, some (Json.dumps (.obj [("response", .str
            (if pyEqOpt (pyGet kvs "studentAnswer") (pyGet kvs "correctAnswer") then
              "Great job! '" ++ pyStrOpt (pyGet kvs "studentAnswer") ++ "' is correct. "
                ++ (match assocLookup kvs "explanation" with
                    | some v => pyStr v
                    | none => "")
                ++ " Keep up the good work!"
            else
              "Good try! The correct answer is '" ++ pyStrOpt (pyGet kvs "correctAnswer")
                ++ "'. "
                ++ (match assocLookup kvs "explanation" with
                    | some v => pyStr v
                    | none => "")
                ++ " You'll get it next time!"))]))⟩)
    ∧ (∀ env : Env, env.aiProvider = some "bedrock" → env.boto3Available = false →
        aiTutor.lambda_handler env ⟨none, some s⟩ =
          .ok ⟨some 200, jsonHeaders,
            some (Json.dumps (.obj [("response", .str aiTutor.unableReply)]))⟩)
    ∧ (∀ env : Env, env.aiProvider = some "openai" → env.openaiAvailable = false →
        aiTutor.lambda_handler env ⟨none, some s⟩ =
          .ok ⟨some 200, jsonHeaders,
            some (Json.dumps (.obj [("response", .str aiTutor.unableReply)]))⟩)
    ∧ (∀ env : Env, env.aiProvider = some "openai" → env.openaiAvailable = true →
        ∀ msg, env.openaiCallResult = .error msg →
          aiTutor.lambda_handler env ⟨none, some s⟩ =
            .ok ⟨some 200, jsonHeaders,
              some (Json.dumps (.obj [("response", .str aiTutor.couldNotThinkReply)]))⟩) := by
  refine ⟨fun env hp hb msg hc => ?_, fun env hp hb => ?_,
          fun env hp ho => ?_, fun env hp ho msg hc => ?_⟩
  · unfold aiTutor.lambda_handler aiTutor.invoke_bedrock
    rw [show (Event.body ⟨none, some s⟩).getD "\x7b\x7d" = s from rfl, hparse, hp, hb, hc]
    rfl
  · unfold aiTutor.lambda_handler aiTutor.invoke_bedrock
    rw [show (Event.body ⟨none, some s⟩).getD "\x7b\x7d" = s from rfl, hparse, hp, hb]
    rfl
  · unfold aiTutor.lambda_handler aiTutor.invoke_openai
    rw [show (Event.body ⟨none, some s⟩).getD "\x7b\x7d" = s from rfl, hparse, hp, ho]
    rfl
  · unfold aiTutor.lambda_handler aiTutor.invoke_openai
    rw [show (Event.body ⟨none, some s⟩).getD "\x7b\x7d" = s from rfl, hparse, hp, ho, hc]
    rfl

/-- C3 witness: the four failure paths at concrete environments. -/
theorem ai_provider_failure_paths_witness :
    aiTutor.lambda_handler ⟨some "bedrock", true, true, .error "boom", .ok ""⟩
        ⟨none, some "\x7b\"studentAnswer\": \"3\", \"correctAnswer\": \"4\"\x7d"⟩ =
      .ok ⟨some 200, jsonHeaders, some (Json.dumps (.obj [("response",
        .str "Good try! The correct answer is '4'.  You'll get it next time!")]))⟩
    ∧ aiTutor.lambda_handler ⟨some "bedrock", false, true, .ok "", .ok ""⟩
        ⟨none, some "\x7b\"studentAnswer\": \"3\", \"correctAnswer\": \"4\"\x7d"⟩ =
      .ok ⟨some 200, jsonHeaders,
        some (Json.dumps (.obj [("response", .str aiTutor.unableReply)]))⟩
    ∧ aiTutor.lambda_handler ⟨some "openai", true, false, .ok "", .ok ""⟩
        ⟨none, some "\x7b\"studentAnswer\": \"3\", \"correctAnswer\": \"4\"\x7d"⟩ =
      .ok ⟨some 200, jsonHeaders,
        some (Json.dumps (.obj [("response", .str aiTutor.unableReply)]))⟩
    ∧ aiTutor.lambda_handler ⟨some "openai", true, true, .ok "", .error "down"⟩
        ⟨none, some "\x7b\"studentAnswer\": \"3\", \"correctAnswer\": \"4\"\x7d"⟩ =
      .ok ⟨some 200, jsonHeaders,
        some (Json.dumps (.obj [("response", .str aiTutor.couldNotThinkReply)]))⟩ :=
  ⟨(ai_provider_failure_paths
      "\x7b\"studentAnswer\": \"3\", \"correctAnswer\": \"4\"\x7d"
      [("studentAnswer", .str "3"), ("correctAnswer", .str "4")] rfl).1 _ rfl rfl "boom" rfl,
   (ai_provider_failure_paths
      "\x7b\"studentAnswer\": \"3\", \"correctAnswer\": \"4\"\x7d"
      [("studentAnswer", .str "3"), ("correctAnswer", .str "4")] rfl).2.1 _ rfl rfl,
   (ai_provider_failure_paths
      "\x7b\"studentAnswer\": \"3\", \"correctAnswer\": \"4\"\x7d"
      [("studentAnswer", .str "3"), ("correctAnswer", .str "4")] rfl).2.2.1 _ rfl rfl,
   (ai_provider_failure_paths
      "\x7b\"studentAnswer\": \"3\", \"correctAnswer\": \"4\"\x7d"
      [("studentAnswer", .str "3"), ("correctAnswer", .str "4")] rfl).2.2.2 _ rfl rfl "down" rfl⟩

/-- C4 counterexample: an event whose body is not valid JSON makes the
AI-tutor handler return status 400, not 200. -/
theorem ai_invalid_json_returns_400 :
    aiTutor.lambda_handler ⟨none, true, true, .ok "", .ok ""⟩ ⟨none, some "\x7b"⟩ =
      .ok ⟨some 400, jsonHeaders,
        some (Json.dumps (.obj [("message", .str "Invalid JSON")]))⟩
    ∧ (some 400 : Option Nat) ≠ some 200 :=
  ⟨rfl, by decide⟩

/-- C4 (amended): for every event whose body (defaulting to the empty
object) parses as a JSON object, the AI-tutor handler returns status 200
with a JSON body carrying the resulting response text. -/
theorem ai_object_body_returns_200 (env : Env) (event : Event)
    (kvs : List (String × Json))
    (hparse : parseJson (event.body.getD "\x7b\x7d") = some (.obj kvs)) :
    ∃ t : String, aiTutor.lambda_handler env event =
      .ok ⟨some 200, jsonHeaders, some (Json.dumps (.obj [("response", .str t)]))⟩ := by
  unfold aiTutor.lambda_handler
  rw [hparse]
  exact ⟨_, rfl⟩

/-- C4 witness: an absent body parses as the empty object and yields 200. -/
theorem ai_object_body_returns_200_witness :
    ∃ t : String,
      aiTutor.lambda_handler ⟨none, true, true, .ok "", .ok ""⟩ ⟨none, none⟩ =
        .ok ⟨some 200, jsonHeaders, some (Json.dumps (.obj [("response", .str t)]))⟩ :=
  ai_object_body_returns_200 ⟨none, true, true, .ok "", .ok ""⟩ ⟨none, none⟩ [] rfl

/-! ## Claims about the calendar and learning-style handlers -/

/-- C8: the calendar handler returns the same fixed three-entry list on
every call, and every request routed through `GET /learning-style` yields
the same fixed profile, with `studentId` `"unknown"`. -/
theorem calendar_and_learning_style_fixed :
    (∀ event : Event, getCalendar.lambda_handler event =
      .ok ⟨some 200, jsonHeaders, some (Json.dumps (.obj [("calendar", .arr
        [.obj [("date", .str "2025-08-18"), ("event", .str "First day of school"),
               ("isSchoolDay", .bool true)],
         .obj [("date", .str "2025-09-02"), ("event", .str "Labor Day"),
               ("isSchoolDay", .bool false)],
         .obj [("date", .str "2025-12-20"), ("event", .str "Winter break begins"),
               ("isSchoolDay", .bool false)]])]))⟩)
    ∧ (∀ args : List (String × String), learning_style_route args =
        .ok (200, .obj
          [("studentId", .str "unknown"),
           ("preferredModalities", .arr [.str "visual", .str "hands-on"]),
           ("accuracy", .num 85 2),
           ("averageTimeSeconds", .num 12 0)])) :=
  ⟨fun _ => rfl, fun _ => rfl⟩

/-! ## Claims about the router -/

/-- C7 counterexample: the learning-style route does not construct its event
from the incoming query parameters — routed, `studentId=abc` still yields
the `"unknown"` profile, while an event built from the query parameters
would echo `"abc"`. -/
theorem learning_style_route_drops_query_params :
    learning_style_route [("studentId", "abc")] =
      .ok (200, .obj
        [("studentId", .str "unknown"),
         ("preferredModalities", .arr [.str "visual", .str "hands-on"]),
         ("accuracy", .num 85 2), ("averageTimeSeconds", .num 12 0)])
    ∧ call_lambda getLearningStyle.lambda_handler ⟨some [("studentId", "abc")], none⟩ =
      .ok (200, .obj
        [("studentId", .str "abc"),
         ("preferredModalities", .arr [.str "visual", .str "hands-on"]),
         ("accuracy", .num 85 2), ("averageTimeSeconds", .num 12 0)])
    ∧ ("unknown" : String) ≠ "abc" :=
  ⟨rfl, rfl, by decide⟩

/-- C7 (amended): the router builds each event as the code does — query
parameters (or `None` when empty) for the lessons route, an empty event for
the calendar and learning-style routes, the raw body for POST routes —
invokes the bound handler synchronously, and translates status/body with
defaults 200 and the empty JSON object. -/
theorem router_contract (catalog : getLessons.Catalog) (day : Nat) (dateStr : String) :
    (∀ args : List (String × String),
      lessons_route catalog day dateStr args =
        call_lambda (getLessons.lambda_handler catalog day dateStr)
          ⟨if args.isEmpty then none else some args, none⟩)
    ∧ (∀ (env : Env) (raw : String),
        ai_route env raw = call_lambda (aiTutor.lambda_handler env) ⟨none, some raw⟩)
    ∧ (∀ raw : String,
        answer_route raw = call_lambda submitAnswer.lambda_handler ⟨none, some raw⟩)
    ∧ (∀ raw : String,
        report_route raw = call_lambda generateReport.lambda_handler ⟨none, some raw⟩)
    ∧ (∀ args : List (String × String),
        calendar_route args = call_lambda getCalendar.lambda_handler ⟨none, none⟩)
    ∧ (∀ args : List (String × String),
        learning_style_route args = call_lambda getLearningStyle.lambda_handler ⟨none, none⟩)
    ∧ (∀ (h : Event → Except String LambdaResult) (e : Event) (r : LambdaResult),
        h e = .ok r → r.statusCode = none →
          ∃ j : Json, call_lambda h e = .ok (200, j))
    ∧ (∀ (h : Event → Except String LambdaResult) (e : Event) (r : LambdaResult),
        h e = .ok r → r.body = none →
          call_lambda h e = .ok (r.statusCode.getD 200, .obj [])) := by
  refine ⟨fun _ => rfl, fun _ _ => rfl, fun _ => rfl, fun _ => rfl, fun _ => rfl,
          fun _ => rfl, fun h e r hr hs => ?_, fun h e r hr hb => ?_⟩
  · unfold call_lambda
    rw [hr]
    dsimp only
    rw [hs]
    exact ⟨_, rfl⟩
  · unfold call_lambda
    rw [hr]
    dsimp only
    rw [hb]
    rfl

/-- C7 witness: a handler omitting both `statusCode` and `body` is routed to
status 200 with the empty JSON object. -/
theorem router_contract_witness :
    (∃ j : Json,
      call_lambda (fun _ => .ok ⟨none, [], none⟩) ⟨none, none⟩ = .ok (200, j))
    ∧ call_lambda (fun _ => .ok ⟨none, [], none⟩) ⟨none, none⟩ =
        .ok ((none : Option Nat).getD 200, .obj []) :=
  ⟨(router_contract [] 0 "").2.2.2.2.2.2.1 _ ⟨none, none⟩ ⟨none, [], none⟩ rfl rfl,
   (router_contract [] 0 "").2.2.2.2.2.2.2 _ ⟨none, none⟩ ⟨none, [], none⟩ rfl rfl⟩

/-! ## Absent body keys take the success path -/

/-- C10: an event with no `body` key is read as the empty JSON object, so
the answer, report and AI-tutor handlers all take their 200 path. -/
theorem no_body_key_takes_success_path :
    submitAnswer.lambda_handler ⟨none, none⟩ =
      .ok ⟨some 200, jsonHeaders,
        some (Json.dumps (.obj [("message", .str "Answer recorded")]))⟩
    ∧ generateReport.lambda_handler ⟨none, none⟩ =
      .ok ⟨some 200, jsonHeaders,
        some (Json.dumps (.obj [("message", .str "Report generation initiated")]))⟩
    ∧ ∀ env : Env, ∃ t : String,
        aiTutor.lambda_handler env ⟨none, none⟩ =
          .ok ⟨some 200, jsonHeaders,
            some (Json.dumps (.obj [("response", .str t)]))⟩ :=
  ⟨rfl, rfl, fun _env => ⟨_, rfl⟩⟩

end EduPlatform
